import Mathlib

/-!
Shallow embedding of the covert administrative control plane.

Embedded from the repository sources:
  * `covert-server/src/system/mod.rs` — `new_system_backend`: the route
    table, per-route configurations and extension layers of the system
    backend.
  * `covert-types/src/methods/system/entity.rs` — the entity route
    request/response payload types.

The routing framework (`covert_framework`) is not part of the sources, so
request dispatch, the default route configuration and serialization
semantics are modelled from the specification where needed; each such
definition carries a doc comment starting `Modelled from the spec:`.
-/

namespace Covert

/-- `VaultState` from `covert-types`: the cluster lifecycle state. -/
inductive VaultState
  | Uninitialized
  | Sealed
  | Unsealed
  deriving DecidableEq, Repr

/-- `AuthPolicy` from `covert-types`: per-route authorization policy. -/
inductive AuthPolicy
  | Authenticated
  | Unauthenticated
  deriving DecidableEq, Repr

/-- `RouteConfig` from `covert_framework`: policy plus required-state set. -/
structure RouteConfig where
  policy : AuthPolicy
  state : List VaultState
  deriving DecidableEq, Repr

/-- The handler functions referenced by `new_system_backend`, one
constructor per handler name. -/
inductive Handler
  | handle_unseal
  | handle_seal
  | handle_initialize
  | handle_status
  | handle_mounts_list
  | handle_mount
  | handle_update_mount
  | handle_mount_disable
  | handle_create_policy
  | handle_list_policies
  | handle_delete_policy
  | handle_token_revocation
  | handle_lease_revocation
  | handle_lease_renew
  | handle_lease_lookup
  | handle_lease_revocation_by_mount
  | handle_list_leases
  | handle_entity_create
  | handle_attach_entity_policy
  | handle_remove_entity_policy
  | handle_attach_entity_alias
  | handle_remove_entity_alias
  deriving DecidableEq, Repr

/-- The verbs of the route surface; `revoke` is the distinguished
update-like verb. -/
inductive Verb
  | create
  | read
  | update
  | delete
  | revoke
  deriving DecidableEq, Repr

/-- A registered (handler, optional explicit config) pair.  `config = none`
means the route entry was registered through the plain combinator and takes
the framework's default route configuration. -/
structure Entry where
  handler : Handler
  config : Option RouteConfig
  deriving DecidableEq, Repr

/-- A method router: the verb → entry table built by the
`create/read/update/delete/revoke` combinator chain on one path. -/
structure MethodRouter where
  entries : List (Verb × Entry)
  deriving DecidableEq, Repr

def MethodRouter.get (m : MethodRouter) (v : Verb) : Option Entry :=
  (m.entries.find? (fun p => p.1 == v)).map (·.2)

/-- `create(h)` combinator. -/
def create (h : Handler) : MethodRouter :=
  ⟨[(Verb.create, ⟨h, none⟩)]⟩

/-- `create_with_config(h, cfg)` combinator. -/
def create_with_config (h : Handler) (cfg : RouteConfig) : MethodRouter :=
  ⟨[(Verb.create, ⟨h, some cfg⟩)]⟩

/-- `read(h)` combinator. -/
def read (h : Handler) : MethodRouter :=
  ⟨[(Verb.read, ⟨h, none⟩)]⟩

/-- `read_with_config(h, cfg)` combinator. -/
def read_with_config (h : Handler) (cfg : RouteConfig) : MethodRouter :=
  ⟨[(Verb.read, ⟨h, some cfg⟩)]⟩

/-- `update(h)` combinator. -/
def update (h : Handler) : MethodRouter :=
  ⟨[(Verb.update, ⟨h, none⟩)]⟩

/-- `delete(h)` combinator. -/
def delete (h : Handler) : MethodRouter :=
  ⟨[(Verb.delete, ⟨h, none⟩)]⟩

/-- `revoke(h)` combinator. -/
def revoke (h : Handler) : MethodRouter :=
  ⟨[(Verb.revoke, ⟨h, none⟩)]⟩

/-- `.create(h)` chained method. -/
def MethodRouter.create (m : MethodRouter) (h : Handler) : MethodRouter :=
  ⟨m.entries ++ [(Verb.create, ⟨h, none⟩)]⟩

/-- `.read(h)` chained method. -/
def MethodRouter.read (m : MethodRouter) (h : Handler) : MethodRouter :=
  ⟨m.entries ++ [(Verb.read, ⟨h, none⟩)]⟩

/-- `.update(h)` chained method. -/
def MethodRouter.update (m : MethodRouter) (h : Handler) : MethodRouter :=
  ⟨m.entries ++ [(Verb.update, ⟨h, none⟩)]⟩

/-- `.update_with_config(h, cfg)` chained method. -/
def MethodRouter.update_with_config (m : MethodRouter) (h : Handler)
    (cfg : RouteConfig) : MethodRouter :=
  ⟨m.entries ++ [(Verb.update, ⟨h, some cfg⟩)]⟩

/-- `.delete(h)` chained method. -/
def MethodRouter.delete (m : MethodRouter) (h : Handler) : MethodRouter :=
  ⟨m.entries ++ [(Verb.delete, ⟨h, none⟩)]⟩

/-- The extension values layered onto the router; the payload stands for
the concrete store value passed to `new_system_backend`. -/
inductive Ext
  | expirationManager (v : Nat)
  | tokenStore (v : Nat)
  | policyStore (v : Nat)
  | identityStore (v : Nat)
  deriving DecidableEq, Repr

/-- The six collaborator kinds the specification names. -/
inductive ExtKind
  | policyStoreK
  | tokenStoreK
  | identityStoreK
  | leaseManagerK
  | mountTableK
  | lifecycleStateK
  deriving DecidableEq, Repr

/-- Which collaborator an extension value provides (the expiration manager
is the Lease Manager of the specification). -/
def extKind : Ext → ExtKind
  | Ext.expirationManager _ => ExtKind.leaseManagerK
  | Ext.tokenStore _ => ExtKind.tokenStoreK
  | Ext.policyStore _ => ExtKind.policyStoreK
  | Ext.identityStore _ => ExtKind.identityStoreK

/-- The router: an ordered route table plus layered extensions. -/
structure Router where
  routes : List (String × MethodRouter)
  extensions : List Ext
  deriving DecidableEq, Repr

def Router.new : Router := ⟨[], []⟩

def Router.route (r : Router) (p : String) (m : MethodRouter) : Router :=
  ⟨r.routes ++ [(p, m)], r.extensions⟩

def Router.layer (r : Router) (e : Ext) : Router :=
  ⟨r.routes, r.extensions ++ [e]⟩

def Router.build (r : Router) : Router := r

def Router.into_service (r : Router) : Router := r

/-- `BackendCategory` from `covert-types` (constructors beyond `Logical`
are not in the sources; `Credential` is included so the type is not a
singleton). -/
inductive BackendCategory
  | Logical
  | Credential
  deriving DecidableEq, Repr

/-- `BackendType` from `covert-types` (constructors beyond `System` are not
in the sources; `Kv` is included so the type is not a singleton). -/
inductive BackendType
  | System
  | Kv
  deriving DecidableEq, Repr

/-- `Backend` as constructed by `new_system_backend`. -/
structure Backend where
  handler : Router
  category : BackendCategory
  variant : BackendType
  migrations : List String
  deriving DecidableEq, Repr

/-- `new_system_backend` from `covert-server/src/system/mod.rs`, mirrored
route for route and layer for layer in source order. -/
def new_system_backend (token_store : Nat) (policy_store : Nat)
    (identity_store : Nat) (expiration_manager : Nat) : Backend :=
  let router := Router.new
    |>.route "/unseal"
      ((create_with_config Handler.handle_unseal
          ⟨AuthPolicy.Unauthenticated, [VaultState.Sealed]⟩).update_with_config
        Handler.handle_unseal
        ⟨AuthPolicy.Unauthenticated, [VaultState.Sealed]⟩)
    |>.route "/seal"
      ((create_with_config Handler.handle_seal
          ⟨AuthPolicy.Unauthenticated, [VaultState.Unsealed]⟩).update_with_config
        Handler.handle_seal
        ⟨AuthPolicy.Unauthenticated, [VaultState.Unsealed]⟩)
    |>.route "/init"
      ((create_with_config Handler.handle_initialize
          ⟨AuthPolicy.Unauthenticated, [VaultState.Uninitialized]⟩).update_with_config
        Handler.handle_initialize
        ⟨AuthPolicy.Unauthenticated, [VaultState.Uninitialized]⟩)
    |>.route "/status"
      (read_with_config Handler.handle_status
        ⟨AuthPolicy.Unauthenticated,
          [VaultState.Uninitialized, VaultState.Sealed, VaultState.Unsealed]⟩)
    |>.route "/mounts" (read Handler.handle_mounts_list)
    |>.route "/mounts/*path"
      (((create Handler.handle_mount).update
          Handler.handle_update_mount).delete Handler.handle_mount_disable)
    |>.route "/policies"
      (((update Handler.handle_create_policy).create
          Handler.handle_create_policy).read Handler.handle_list_policies)
    |>.route "/policies/*name" (delete Handler.handle_delete_policy)
    |>.route "/token/revoke" (revoke Handler.handle_token_revocation)
    |>.route "/leases/revoke/*lease_id" (update Handler.handle_lease_revocation)
    |>.route "/leases/renew/*lease_id" (update Handler.handle_lease_renew)
    |>.route "/leases/lookup/*lease_id" (read Handler.handle_lease_lookup)
    |>.route "/leases/revoke-mount/*prefix"
      (update Handler.handle_lease_revocation_by_mount)
    |>.route "/leases/lookup-mount/*prefix" (read Handler.handle_list_leases)
    |>.route "/entity" (create Handler.handle_entity_create)
    |>.route "/entity/policy" (update Handler.handle_attach_entity_policy)
    |>.route "/entity/policy/*name" (update Handler.handle_remove_entity_policy)
    |>.route "/entity/alias" (update Handler.handle_attach_entity_alias)
    |>.route "/entity/alias/*name" (update Handler.handle_remove_entity_alias)
    |>.layer (Ext.expirationManager expiration_manager)
    |>.layer (Ext.tokenStore token_store)
    |>.layer (Ext.policyStore policy_store)
    |>.layer (Ext.identityStore identity_store)
    |>.build
    |>.into_service
  { handler := router
    category := BackendCategory.Logical
    variant := BackendType.System
    migrations := [] }

/-- The system router with representative store arguments (the route table
is independent of the arguments, see the determinism theorem). -/
def systemRouter : Router := (new_system_backend 0 0 0 0).handler

/-! ## Dispatch, modelled from the spec

The routing framework itself is not in the sources; the following
definitions model its route matching from the specification's dispatch
contract: match path/verb against the route table with exact-over-wildcard
precedence, no match gives `NotFound`, then the lifecycle-state gate. -/

/-- The error kinds of the spec's taxonomy that routing can produce. -/
inductive ApiError
  | NotFound
  | InvalidState
  | PermissionDenied
  deriving DecidableEq, Repr

/-- Result of dispatching a request: either the handler that would be
invoked, or a routing/gating error. -/
inductive DispatchResult
  | ok (h : Handler)
  | err (e : ApiError)
  deriving DecidableEq, Repr

/-- The characters of a pattern before its first `*`, when the pattern
contains a wildcard. -/
def takeUntilStar : List Char → Option (List Char)
  | [] => none
  | c :: cs => if c = '*' then some [] else (takeUntilStar cs).map (c :: ·)

/-- Whether a route pattern contains a wildcard segment. -/
def hasWildcard (pat : String) : Bool := (takeUntilStar pat.data).isSome

/-- Modelled from the spec: a wildcard pattern matches any request path
extending its stem (the wildcard captures the remainder of the path); an
exact pattern matches only itself. -/
def patMatches (pat p : String) : Bool :=
  match takeUntilStar pat.data with
  | some stem => stem.isPrefixOf p.data
  | none => pat == p

/-- Modelled from the spec: exact-over-wildcard precedence — an exact match
is preferred over a wildcard capture. -/
def findRoute (routes : List (String × MethodRouter)) (p : String) :
    Option MethodRouter :=
  match routes.find? (fun r => !hasWildcard r.1 && r.1 == p) with
  | some r => some r.2
  | none => (routes.find? (fun r => hasWildcard r.1 && patMatches r.1 p)).map (·.2)

/-- Modelled from the spec: the default route configuration taken by routes
registered without an explicit config — authenticated, and reachable only
when Unsealed ("Routes with no listed required-state restriction are only
reachable when Unsealed"). -/
def defaultConfig : RouteConfig :=
  ⟨AuthPolicy.Authenticated, [VaultState.Unsealed]⟩

/-- The effective configuration of a route entry. -/
def Entry.effectiveConfig (e : Entry) : RouteConfig :=
  e.config.getD defaultConfig

/-- Modelled from the spec: dispatch — route match (no match ⇒ `NotFound`),
then the lifecycle-state gate (current state outside the route's required
set ⇒ `InvalidState`), then handler invocation. -/
def dispatch (r : Router) (p : String) (v : Verb) (s : VaultState) :
    DispatchResult :=
  match findRoute r.routes p with
  | none => DispatchResult.err ApiError.NotFound
  | some m =>
    match m.get v with
    | none => DispatchResult.err ApiError.NotFound
    | some e =>
      if e.effectiveConfig.state.contains s then DispatchResult.ok e.handler
      else DispatchResult.err ApiError.InvalidState

/-- The route entry (handler and config) a path/verb pair resolves to. -/
def routeMatch (r : Router) (p : String) (v : Verb) : Option Entry :=
  match findRoute r.routes p with
  | none => none
  | some m => m.get v

/-- Modelled from the spec: the lifecycle state a handler transitions the
cluster to on success (init ⇒ Sealed, unseal ⇒ Unsealed on reaching the
threshold, seal ⇒ Sealed; every other handler leaves the state alone). -/
def handlerTransition : Handler → Option VaultState
  | Handler.handle_initialize => some VaultState.Sealed
  | Handler.handle_unseal => some VaultState.Unsealed
  | Handler.handle_seal => some VaultState.Sealed
  | _ => none

/-- The verbs registered on a method router. -/
def MethodRouter.verbs (m : MethodRouter) : List Verb := m.entries.map (·.1)

/-- The paths of the route table, in registration order. -/
def Router.paths (r : Router) : List String := r.routes.map (·.1)

/-- The four lifecycle/status paths carrying explicit configurations. -/
def specialPaths : List String := ["/init", "/seal", "/unseal", "/status"]

/-! ## Entity route payload types

From `covert-types/src/methods/system/entity.rs`.  The `Entity` and
`EntityAlias` types live in `covert-types/src/entity.rs`, which is not
among the sources, so they are modelled from the spec. -/

/-- Modelled from the spec: an `EntityAlias` maps an external
authentication method's identity (a name under an auth mount) to an
entity. -/
structure EntityAlias where
  name : String
  mount_path : String
  deriving DecidableEq, Repr

/-- Modelled from the spec: an `Entity` is {id, name, list of policy
names, list of aliases}. -/
structure Entity where
  id : String
  name : String
  policies : List String
  aliases : List EntityAlias
  deriving DecidableEq, Repr

structure CreateEntityParams where
  name : String
  deriving DecidableEq, Repr

structure CreateEntityResponse where
  entity : Entity
  deriving DecidableEq, Repr

structure AttachEntityPolicyParams where
  name : String
  policy_names : List String
  deriving DecidableEq, Repr

structure AttachEntityPolicyResponse where
  policy_names : List String
  deriving DecidableEq, Repr

structure AttachEntityAliasParams where
  name : String
  aliases : List EntityAlias
  deriving DecidableEq, Repr

structure AttachEntityAliasResponse where
  aliases : List EntityAlias
  deriving DecidableEq, Repr

structure RemoveEntityPolicyParams where
  policy_name : String
  deriving DecidableEq, Repr

structure RemoveEntityPolicyResponse where
  policy_name : String
  deriving DecidableEq, Repr

structure RemoveEntityAliasParams where
  «alias» : EntityAlias
  deriving DecidableEq, Repr

structure RemoveEntityAliasResponse where
  «alias» : EntityAlias
  deriving DecidableEq, Repr

/-! ## Serialization model

Modelled from the spec: the serialization format is an external
collaborator; serde's derived `Serialize`/`Deserialize` for these plain
structs is modelled as a field-name-keyed JSON object encoding. -/

/-- A JSON-like value covering the shapes the entity payloads use. -/
inductive Json
  | str (s : String)
  | arr (xs : List Json)
  | obj (fields : List (String × Json))

def Json.asStr : Json → Option String
  | Json.str s => some s
  | _ => none

def Json.asObj : Json → Option (List (String × Json))
  | Json.obj fs => some fs
  | _ => none

/-- Field lookup in a serialized object. -/
def getField (fs : List (String × Json)) (k : String) : Option Json :=
  (fs.find? (fun p => p.1 == k)).map (·.2)

/-- Element-wise deserialization of a JSON array. -/
def deElems (g : Json → Option α) : List Json → Option (List α)
  | [] => some []
  | j :: js =>
    match g j, deElems g js with
    | some a, some rest => some (a :: rest)
    | _, _ => none

def deArr (g : Json → Option α) : Json → Option (List α)
  | Json.arr xs => deElems g xs
  | _ => none

def EntityAlias.toJson (a : EntityAlias) : Json :=
  Json.obj [("name", Json.str a.name), ("mount_path", Json.str a.mount_path)]

def EntityAlias.fromJson (j : Json) : Option EntityAlias := do
  let fs ← j.asObj
  let n ← (getField fs "name").bind Json.asStr
  let m ← (getField fs "mount_path").bind Json.asStr
  pure ⟨n, m⟩

def Entity.toJson (e : Entity) : Json :=
  Json.obj
    [("id", Json.str e.id), ("name", Json.str e.name),
      ("policies", Json.arr (e.policies.map Json.str)),
      ("aliases", Json.arr (e.aliases.map EntityAlias.toJson))]

def Entity.fromJson (j : Json) : Option Entity := do
  let fs ← j.asObj
  let i ← (getField fs "id").bind Json.asStr
  let n ← (getField fs "name").bind Json.asStr
  let ps ← (getField fs "policies").bind (deArr Json.asStr)
  let als ← (getField fs "aliases").bind (deArr EntityAlias.fromJson)
  pure ⟨i, n, ps, als⟩

def CreateEntityParams.toJson (p : CreateEntityParams) : Json :=
  Json.obj [("name", Json.str p.name)]

def CreateEntityParams.fromJson (j : Json) : Option CreateEntityParams := do
  let fs ← j.asObj
  let n ← (getField fs "name").bind Json.asStr
  pure ⟨n⟩

def CreateEntityResponse.toJson (p : CreateEntityResponse) : Json :=
  Json.obj [("entity", p.entity.toJson)]

def CreateEntityResponse.fromJson (j : Json) : Option CreateEntityResponse := do
  let fs ← j.asObj
  let e ← (getField fs "entity").bind Entity.fromJson
  pure ⟨e⟩

def AttachEntityPolicyParams.toJson (p : AttachEntityPolicyParams) : Json :=
  Json.obj
    [("name", Json.str p.name),
      ("policy_names", Json.arr (p.policy_names.map Json.str))]

def AttachEntityPolicyParams.fromJson (j : Json) :
    Option AttachEntityPolicyParams := do
  let fs ← j.asObj
  let n ← (getField fs "name").bind Json.asStr
  let ps ← (getField fs "policy_names").bind (deArr Json.asStr)
  pure ⟨n, ps⟩

def AttachEntityPolicyResponse.toJson (p : AttachEntityPolicyResponse) : Json :=
  Json.obj [("policy_names", Json.arr (p.policy_names.map Json.str))]

def AttachEntityPolicyResponse.fromJson (j : Json) :
    Option AttachEntityPolicyResponse := do
  let fs ← j.asObj
  let ps ← (getField fs "policy_names").bind (deArr Json.asStr)
  pure ⟨ps⟩

def AttachEntityAliasParams.toJson (p : AttachEntityAliasParams) : Json :=
  Json.obj
    [("name", Json.str p.name),
      ("aliases", Json.arr (p.aliases.map EntityAlias.toJson))]

def AttachEntityAliasParams.fromJson (j : Json) :
    Option AttachEntityAliasParams := do
  let fs ← j.asObj
  let n ← (getField fs "name").bind Json.asStr
  let als ← (getField fs "aliases").bind (deArr EntityAlias.fromJson)
  pure ⟨n, als⟩

def AttachEntityAliasResponse.toJson (p : AttachEntityAliasResponse) : Json :=
  Json.obj [("aliases", Json.arr (p.aliases.map EntityAlias.toJson))]

def AttachEntityAliasResponse.fromJson (j : Json) :
    Option AttachEntityAliasResponse := do
  let fs ← j.asObj
  let als ← (getField fs "aliases").bind (deArr EntityAlias.fromJson)
  pure ⟨als⟩

def RemoveEntityPolicyParams.toJson (p : RemoveEntityPolicyParams) : Json :=
  Json.obj [("policy_name", Json.str p.policy_name)]

def RemoveEntityPolicyParams.fromJson (j : Json) :
    Option RemoveEntityPolicyParams := do
  let fs ← j.asObj
  let n ← (getField fs "policy_name").bind Json.asStr
  pure ⟨n⟩

def RemoveEntityPolicyResponse.toJson (p : RemoveEntityPolicyResponse) : Json :=
  Json.obj [("policy_name", Json.str p.policy_name)]

def RemoveEntityPolicyResponse.fromJson (j : Json) :
    Option RemoveEntityPolicyResponse := do
  let fs ← j.asObj
  let n ← (getField fs "policy_name").bind Json.asStr
  pure ⟨n⟩

def RemoveEntityAliasParams.toJson (p : RemoveEntityAliasParams) : Json :=
  Json.obj [("alias", p.«alias».toJson)]

def RemoveEntityAliasParams.fromJson (j : Json) :
    Option RemoveEntityAliasParams := do
  let fs ← j.asObj
  let a ← (getField fs "alias").bind EntityAlias.fromJson
  pure ⟨a⟩

def RemoveEntityAliasResponse.toJson (p : RemoveEntityAliasResponse) : Json :=
  Json.obj [("alias", p.«alias».toJson)]

def RemoveEntityAliasResponse.fromJson (j : Json) :
    Option RemoveEntityAliasResponse := do
  let fs ← j.asObj
  let a ← (getField fs "alias").bind EntityAlias.fromJson
  pure ⟨a⟩

/-- All five verbs of the route surface. -/
def allVerbs : List Verb :=
  [Verb.create, Verb.read, Verb.update, Verb.delete, Verb.revoke]

/-- The spec's route table of section 6 as (path, verb) pairs, wildcard
segments written as in the source patterns.  This definition follows the
spec's words, for comparison against the router built from the source. -/
def specVerbTable : List (String × Verb) :=
  [("/init", Verb.create), ("/init", Verb.update),
    ("/seal", Verb.create), ("/seal", Verb.update),
    ("/unseal", Verb.create), ("/unseal", Verb.update),
    ("/status", Verb.read),
    ("/mounts", Verb.read),
    ("/mounts/*path", Verb.create), ("/mounts/*path", Verb.update),
    ("/mounts/*path", Verb.delete),
    ("/policies", Verb.create), ("/policies", Verb.update),
    ("/policies", Verb.read),
    ("/policies/*name", Verb.delete),
    ("/token/revoke", Verb.revoke),
    ("/leases/revoke/*lease_id", Verb.update),
    ("/leases/renew/*lease_id", Verb.update),
    ("/leases/lookup/*lease_id", Verb.read),
    ("/leases/revoke-mount/*prefix", Verb.update),
    ("/leases/lookup-mount/*prefix", Verb.read),
    ("/entity", Verb.create),
    ("/entity/policy", Verb.update),
    ("/entity/policy/*name", Verb.update),
    ("/entity/alias", Verb.update),
    ("/entity/alias/*name", Verb.update)]

/-! ## Helper lemmas -/

/-- A pattern without a wildcard matches only the identical path. -/
theorem exact_eq {pat p : String} (hw : hasWildcard pat = false)
    (hm : patMatches pat p = true) : pat = p := by
  unfold patMatches at hm
  unfold hasWildcard at hw
  cases ht : takeUntilStar pat.data with
  | some stem => rw [ht] at hw; simp at hw
  | none => rw [ht] at hm; exact eq_of_beq hm

/-- A successful route match comes from a registered route whose pattern
matches the request path. -/
theorem findRoute_mem {routes : List (String × MethodRouter)} {p : String}
    {m : MethodRouter} (h : findRoute routes p = some m) :
    ∃ pat, (pat, m) ∈ routes ∧ patMatches pat p = true := by
  unfold findRoute at h
  cases hf : routes.find? (fun r => !hasWildcard r.1 && r.1 == p) with
  | some r =>
    rw [hf] at h
    cases h
    have hmem := List.mem_of_find?_eq_some hf
    have hpred := List.find?_some hf
    simp only [Bool.and_eq_true, Bool.not_eq_true'] at hpred
    refine ⟨r.1, by simpa using hmem, ?_⟩
    unfold patMatches
    unfold hasWildcard at hpred
    cases ht : takeUntilStar r.1.data with
    | some stem => rw [ht] at hpred; simp at hpred
    | none => exact hpred.2
  | none =>
    rw [hf] at h
    simp only [Option.map_eq_some'] at h
    obtain ⟨r, hr, hr2⟩ := h
    have hmem := List.mem_of_find?_eq_some hr
    have hpred := List.find?_some hr
    simp only [Bool.and_eq_true] at hpred
    subst hr2
    exact ⟨r.1, by simpa using hmem, hpred.2⟩

/-- A resolved verb entry is among the method router's entries. -/
theorem get_mem {m : MethodRouter} {v : Verb} {e : Entry}
    (h : m.get v = some e) : ∃ pr, pr ∈ m.entries ∧ pr.1 = v ∧ pr.2 = e := by
  unfold MethodRouter.get at h
  simp only [Option.map_eq_some'] at h
  obtain ⟨pr, hpr, hpr2⟩ := h
  have hmem := List.mem_of_find?_eq_some hpr
  have hpred := List.find?_some hpr
  simp only [beq_iff_eq] at hpred
  exact ⟨pr, hmem, hpred, hpr2⟩

/-- In the system route table, the four lifecycle/status paths are exact
patterns, and every other route's entries carry no explicit config. -/
theorem routes_cfg_fact : ∀ q ∈ systemRouter.routes,
    (q.1 ∈ specialPaths → hasWildcard q.1 = false) ∧
    (q.1 ∉ specialPaths → ∀ ve ∈ q.2.entries, ve.2.config = none) := by
  decide

/-- Element-wise deserialization inverts element-wise serialization. -/
theorem deElems_map {α : Type} (f : α → Json) (g : Json → Option α)
    (hfg : ∀ a, g (f a) = some a) (xs : List α) :
    deElems g (xs.map f) = some xs := by
  induction xs with
  | nil => rfl
  | cons x xs ih => simp [deElems, hfg, ih]

/-- `EntityAlias` serialization round-trips. -/
theorem entityAlias_roundtrip (a : EntityAlias) :
    EntityAlias.fromJson a.toJson = some a := rfl

/-- `Entity` serialization round-trips. -/
theorem entity_roundtrip (e : Entity) : Entity.fromJson e.toJson = some e := by
  simp [Entity.toJson, Entity.fromJson, Json.asObj, getField, Json.asStr,
    deArr, deElems_map Json.str Json.asStr (fun _ => rfl),
    deElems_map EntityAlias.toJson EntityAlias.fromJson entityAlias_roundtrip]

/-! ## Claim theorems -/

/-- C1: the three lifecycle-transition routes are registered with
required-state sets realizing exactly the lifecycle state machine — /init
(create and update) requires Uninitialized, /unseal (create and update)
requires Sealed, /seal (create and update) requires Unsealed, each with
policy Unauthenticated and no other verb — and no registered route entry
whose required-state set admits Uninitialized has a handler transitioning
to Unsealed, so no route permits a direct Uninitialized-to-Unsealed
step. -/
theorem lifecycle_route_state_machine :
    (routeMatch systemRouter "/init" Verb.create =
        some ⟨Handler.handle_initialize,
          some ⟨AuthPolicy.Unauthenticated, [VaultState.Uninitialized]⟩⟩ ∧
      routeMatch systemRouter "/init" Verb.update =
        some ⟨Handler.handle_initialize,
          some ⟨AuthPolicy.Unauthenticated, [VaultState.Uninitialized]⟩⟩ ∧
      routeMatch systemRouter "/init" Verb.read = none ∧
      routeMatch systemRouter "/init" Verb.delete = none ∧
      routeMatch systemRouter "/init" Verb.revoke = none) ∧
    (routeMatch systemRouter "/unseal" Verb.create =
        some ⟨Handler.handle_unseal,
          some ⟨AuthPolicy.Unauthenticated, [VaultState.Sealed]⟩⟩ ∧
      routeMatch systemRouter "/unseal" Verb.update =
        some ⟨Handler.handle_unseal,
          some ⟨AuthPolicy.Unauthenticated, [VaultState.Sealed]⟩⟩ ∧
      routeMatch systemRouter "/unseal" Verb.read = none ∧
      routeMatch systemRouter "/unseal" Verb.delete = none ∧
      routeMatch systemRouter "/unseal" Verb.revoke = none) ∧
    (routeMatch systemRouter "/seal" Verb.create =
        some ⟨Handler.handle_seal,
          some ⟨AuthPolicy.Unauthenticated, [VaultState.Unsealed]⟩⟩ ∧
      routeMatch systemRouter "/seal" Verb.update =
        some ⟨Handler.handle_seal,
          some ⟨AuthPolicy.Unauthenticated, [VaultState.Unsealed]⟩⟩ ∧
      routeMatch systemRouter "/seal" Verb.read = none ∧
      routeMatch systemRouter "/seal" Verb.delete = none ∧
      routeMatch systemRouter "/seal" Verb.revoke = none) ∧
    (∀ q ∈ systemRouter.routes, ∀ ve ∈ q.2.entries,
      VaultState.Uninitialized ∈ ve.2.effectiveConfig.state →
        handlerTransition ve.2.handler ≠ some VaultState.Unsealed) := by
  exact ⟨by decide, by decide, by decide, by decide⟩

/-- C1 witness: the /init create entry itself admits Uninitialized and its
handler does not transition to Unsealed. -/
theorem lifecycle_route_state_machine_witness :
    handlerTransition Handler.handle_initialize ≠ some VaultState.Unsealed :=
  lifecycle_route_state_machine.2.2.2
    ("/init",
      (create_with_config Handler.handle_initialize
          ⟨AuthPolicy.Unauthenticated, [VaultState.Uninitialized]⟩).update_with_config
        Handler.handle_initialize
        ⟨AuthPolicy.Unauthenticated, [VaultState.Uninitialized]⟩)
    (by decide)
    (Verb.create,
      ⟨Handler.handle_initialize,
        some ⟨AuthPolicy.Unauthenticated, [VaultState.Uninitialized]⟩⟩)
    (by decide) (by decide)

/-- C2 counterexample: neither a Mount Table nor a Lifecycle State Holder
extension is injected by the router `new_system_backend` builds, so not all
six collaborators the claim lists are made available by its
construction. -/
theorem extensions_missing_mount_table :
    ExtKind.mountTableK ∉
        ((new_system_backend 0 0 0 0).handler.extensions.map extKind) ∧
      ExtKind.lifecycleStateK ∉
        ((new_system_backend 0 0 0 0).handler.extensions.map extKind) := by
  decide

/-- C2 (amended): the router's construction injects exactly four
collaborators as extension layers — the Lease Manager (expiration
manager), Token Store, Policy Store and Identity Store, in that order;
the Mount Table and the Lifecycle State Holder are not injected by
`new_system_backend`. -/
theorem extensions_exactly_four_stores :
    ∀ t p i e,
      (new_system_backend t p i e).handler.extensions =
        [Ext.expirationManager e, Ext.tokenStore t, Ext.policyStore p,
          Ext.identityStore i] ∧
      ((new_system_backend t p i e).handler.extensions.map extKind) =
        [ExtKind.leaseManagerK, ExtKind.tokenStoreK, ExtKind.policyStoreK,
          ExtKind.identityStoreK] :=
  fun _ _ _ _ => ⟨rfl, rfl⟩

/-- C3: the router registers exactly the nineteen paths of the spec's
route table, each path carries exactly the listed verbs, and dispatching
any request whose path/verb matches no registered route returns
NotFound. -/
theorem route_table_exact_and_notfound :
    systemRouter.paths =
      ["/unseal", "/seal", "/init", "/status", "/mounts", "/mounts/*path",
        "/policies", "/policies/*name", "/token/revoke",
        "/leases/revoke/*lease_id", "/leases/renew/*lease_id",
        "/leases/lookup/*lease_id", "/leases/revoke-mount/*prefix",
        "/leases/lookup-mount/*prefix", "/entity", "/entity/policy",
        "/entity/policy/*name", "/entity/alias", "/entity/alias/*name"] ∧
    (∀ q ∈ systemRouter.routes, ∀ v ∈ allVerbs,
      (q.2.get v).isSome = specVerbTable.contains (q.1, v)) ∧
    (∀ p v s, routeMatch systemRouter p v = none →
      dispatch systemRouter p v s = DispatchResult.err ApiError.NotFound) := by
  refine ⟨by decide, by decide, ?_⟩
  intro p v s hnone
  unfold routeMatch at hnone
  unfold dispatch
  cases hfr : findRoute systemRouter.routes p with
  | none => rfl
  | some m =>
    rw [hfr] at hnone
    dsimp only at hnone
    dsimp only
    cases hg : m.get v with
    | none => rfl
    | some e => rw [hg] at hnone; cases hnone

/-- C3 witness: the unregistered path "/nope" matches no route and
dispatches to NotFound. -/
theorem route_table_exact_and_notfound_witness :
    routeMatch systemRouter "/nope" Verb.read = none ∧
      dispatch systemRouter "/nope" Verb.read VaultState.Unsealed =
        DispatchResult.err ApiError.NotFound :=
  ⟨by decide,
    route_table_exact_and_notfound.2.2 "/nope" Verb.read VaultState.Unsealed
      (by decide)⟩

/-- C4: every registered route other than /init, /seal, /unseal and
/status is registered without an explicit config (no Unauthenticated
override and no explicit required-state set), and consequently a request
to any path outside those four dispatches to a handler only when the
cluster is Unsealed. -/
theorem default_routes_require_unsealed :
    (∀ q ∈ systemRouter.routes, q.1 ∉ specialPaths →
      ∀ ve ∈ q.2.entries, ve.2.config = none) ∧
    (∀ p v s h, p ∉ specialPaths →
      dispatch systemRouter p v s = DispatchResult.ok h →
      s = VaultState.Unsealed) := by
  refine ⟨by decide, ?_⟩
  intro p v s h hp hd
  unfold dispatch at hd
  cases hfr : findRoute systemRouter.routes p with
  | none => rw [hfr] at hd; cases hd
  | some m =>
    rw [hfr] at hd
    dsimp only at hd
    cases hg : m.get v with
    | none => rw [hg] at hd; cases hd
    | some e =>
      rw [hg] at hd
      dsimp only at hd
      obtain ⟨pat, hmem, hmatch⟩ := findRoute_mem hfr
      have hq := routes_cfg_fact (pat, m) hmem
      by_cases hsp : pat ∈ specialPaths
      · have hw := hq.1 hsp
        have hpe : pat = p := exact_eq hw hmatch
        exact absurd (hpe ▸ hsp) hp
      · obtain ⟨pr, hpr, _, hpre⟩ := get_mem hg
        have hcfg := hq.2 hsp pr hpr
        rw [hpre] at hcfg
        rw [show e.effectiveConfig = defaultConfig by
          unfold Entry.effectiveConfig; rw [hcfg]; rfl] at hd
        by_cases hc : defaultConfig.state.contains s
        · simp only [defaultConfig, List.contains_cons,
            List.contains_nil] at hc
          simpa using eq_of_beq (by simpa using hc)
        · rw [if_neg (by simpa using hc)] at hd; cases hd

/-- C4 witness: "/mounts" is outside the special paths, and read-dispatch
on it in the Unsealed state reaches its handler. -/
theorem default_routes_require_unsealed_witness :
    ("/mounts" ∉ specialPaths) ∧ VaultState.Unsealed = VaultState.Unsealed :=
  ⟨by decide,
    default_routes_require_unsealed.2 "/mounts" Verb.read VaultState.Unsealed
      Handler.handle_mounts_list (by decide) (by decide)⟩

/-- C5: on /policies, create and update are registered to the same handler
(`handle_create_policy`), and dispatching any request to /policies with
verb create gives the same result as with verb update, for every choice of
store arguments and lifecycle state. -/
theorem policies_create_update_same_handler :
    (routeMatch systemRouter "/policies" Verb.create).map Entry.handler =
        some Handler.handle_create_policy ∧
      (routeMatch systemRouter "/policies" Verb.update).map Entry.handler =
        some Handler.handle_create_policy ∧
      ∀ t p i e s,
        dispatch (new_system_backend t p i e).handler "/policies"
            Verb.create s =
          dispatch (new_system_backend t p i e).handler "/policies"
            Verb.update s :=
  ⟨by decide, by decide, fun _ _ _ _ _ => rfl⟩

/-- C6: /status is registered with the read verb only, policy
Unauthenticated and all three lifecycle states required-valid, so a status
read dispatches to its handler in every lifecycle state. -/
theorem status_route_all_states :
    routeMatch systemRouter "/status" Verb.read =
        some ⟨Handler.handle_status,
          some ⟨AuthPolicy.Unauthenticated,
            [VaultState.Uninitialized, VaultState.Sealed,
              VaultState.Unsealed]⟩⟩ ∧
      (∀ v ∈ allVerbs, v ≠ Verb.read →
        routeMatch systemRouter "/status" v = none) ∧
      ∀ s, dispatch systemRouter "/status" Verb.read s =
        DispatchResult.ok Handler.handle_status := by
  refine ⟨by decide, by decide, ?_⟩
  intro s
  cases s <;> decide

/-- C6 witness: a create on /status matches no route entry. -/
theorem status_route_all_states_witness :
    routeMatch systemRouter "/status" Verb.create = none :=
  status_route_all_states.2.1 Verb.create (by decide) (by decide)

/-- C7: every entity request/response type has exactly the fields the spec
lists — each value is rebuilt from its listed fields, and each constructor
stores exactly the listed fields. -/
theorem entity_payload_fields :
    (∀ x : CreateEntityParams, x = ⟨x.name⟩) ∧
    (∀ n, (CreateEntityParams.mk n).name = n) ∧
    (∀ x : CreateEntityResponse, x = ⟨x.entity⟩) ∧
    (∀ e, (CreateEntityResponse.mk e).entity = e) ∧
    (∀ x : AttachEntityPolicyParams, x = ⟨x.name, x.policy_names⟩) ∧
    (∀ n ps, (AttachEntityPolicyParams.mk n ps).name = n ∧
      (AttachEntityPolicyParams.mk n ps).policy_names = ps) ∧
    (∀ x : AttachEntityPolicyResponse, x = ⟨x.policy_names⟩) ∧
    (∀ ps, (AttachEntityPolicyResponse.mk ps).policy_names = ps) ∧
    (∀ x : AttachEntityAliasParams, x = ⟨x.name, x.aliases⟩) ∧
    (∀ n als, (AttachEntityAliasParams.mk n als).name = n ∧
      (AttachEntityAliasParams.mk n als).aliases = als) ∧
    (∀ x : AttachEntityAliasResponse, x = ⟨x.aliases⟩) ∧
    (∀ als, (AttachEntityAliasResponse.mk als).aliases = als) ∧
    (∀ x : RemoveEntityPolicyParams, x = ⟨x.policy_name⟩) ∧
    (∀ n, (RemoveEntityPolicyParams.mk n).policy_name = n) ∧
    (∀ x : RemoveEntityPolicyResponse, x = ⟨x.policy_name⟩) ∧
    (∀ n, (RemoveEntityPolicyResponse.mk n).policy_name = n) ∧
    (∀ x : RemoveEntityAliasParams, x = ⟨x.«alias»⟩) ∧
    (∀ a, (RemoveEntityAliasParams.mk a).«alias» = a) ∧
    (∀ x : RemoveEntityAliasResponse, x = ⟨x.«alias»⟩) ∧
    (∀ a, (RemoveEntityAliasResponse.mk a).«alias» = a) :=
  ⟨fun _ => rfl, fun _ => rfl, fun _ => rfl, fun _ => rfl, fun _ => rfl,
    fun _ _ => ⟨rfl, rfl⟩, fun _ => rfl, fun _ => rfl, fun _ => rfl,
    fun _ _ => ⟨rfl, rfl⟩, fun _ => rfl, fun _ => rfl, fun _ => rfl,
    fun _ => rfl, fun _ => rfl, fun _ => rfl, fun _ => rfl, fun _ => rfl,
    fun _ => rfl, fun _ => rfl⟩

/-- C8: for every value of each entity request/response type,
deserializing its serialization succeeds and yields the original value. -/
theorem entity_payload_roundtrip :
    (∀ x : CreateEntityParams, CreateEntityParams.fromJson x.toJson = some x) ∧
    (∀ x : CreateEntityResponse,
      CreateEntityResponse.fromJson x.toJson = some x) ∧
    (∀ x : AttachEntityPolicyParams,
      AttachEntityPolicyParams.fromJson x.toJson = some x) ∧
    (∀ x : AttachEntityPolicyResponse,
      AttachEntityPolicyResponse.fromJson x.toJson = some x) ∧
    (∀ x : AttachEntityAliasParams,
      AttachEntityAliasParams.fromJson x.toJson = some x) ∧
    (∀ x : AttachEntityAliasResponse,
      AttachEntityAliasResponse.fromJson x.toJson = some x) ∧
    (∀ x : RemoveEntityPolicyParams,
      RemoveEntityPolicyParams.fromJson x.toJson = some x) ∧
    (∀ x : RemoveEntityPolicyResponse,
      RemoveEntityPolicyResponse.fromJson x.toJson = some x) ∧
    (∀ x : RemoveEntityAliasParams,
      RemoveEntityAliasParams.fromJson x.toJson = some x) ∧
    (∀ x : RemoveEntityAliasResponse,
      RemoveEntityAliasResponse.fromJson x.toJson = some x) := by
  refine ⟨fun x => rfl, fun x => ?_, fun x => ?_, fun x => ?_, fun x => ?_,
    fun x => ?_, fun x => rfl, fun x => rfl, fun x => ?_, fun x => ?_⟩
  · simp [CreateEntityResponse.toJson, CreateEntityResponse.fromJson,
      Json.asObj, getField, entity_roundtrip]
  · simp [AttachEntityPolicyParams.toJson, AttachEntityPolicyParams.fromJson,
      Json.asObj, getField, Json.asStr, deArr,
      deElems_map Json.str Json.asStr (fun _ => rfl)]
  · simp [AttachEntityPolicyResponse.toJson,
      AttachEntityPolicyResponse.fromJson, Json.asObj, getField, deArr,
      deElems_map Json.str Json.asStr (fun _ => rfl)]
  · simp [AttachEntityAliasParams.toJson, AttachEntityAliasParams.fromJson,
      Json.asObj, getField, Json.asStr, deArr,
      deElems_map EntityAlias.toJson EntityAlias.fromJson entityAlias_roundtrip]
  · simp [AttachEntityAliasResponse.toJson, AttachEntityAliasResponse.fromJson,
      Json.asObj, getField, deArr,
      deElems_map EntityAlias.toJson EntityAlias.fromJson entityAlias_roundtrip]
  · simp [RemoveEntityAliasParams.toJson, RemoveEntityAliasParams.fromJson,
      Json.asObj, getField, entityAlias_roundtrip]
  · simp [RemoveEntityAliasResponse.toJson, RemoveEntityAliasResponse.fromJson,
      Json.asObj, getField, entityAlias_roundtrip]

/-- C9: for all store arguments, new_system_backend returns a Backend of
category Logical, variant System and empty migrations. -/
theorem system_backend_shape :
    ∀ t p i e,
      (new_system_backend t p i e).category = BackendCategory.Logical ∧
      (new_system_backend t p i e).variant = BackendType.System ∧
      (new_system_backend t p i e).migrations = [] :=
  fun _ _ _ _ => ⟨rfl, rfl, rfl⟩

/-- C10: the route table new_system_backend builds is independent of its
arguments — any two argument tuples yield the same routes (paths, verbs,
handlers, configs), category, variant and migrations; the arguments only
determine the extension values injected into handlers. -/
theorem route_table_independent_of_arguments :
    ∀ t p i e t₂ p₂ i₂ e₂,
      (new_system_backend t p i e).handler.routes =
        (new_system_backend t₂ p₂ i₂ e₂).handler.routes ∧
      (new_system_backend t p i e).category =
        (new_system_backend t₂ p₂ i₂ e₂).category ∧
      (new_system_backend t p i e).variant =
        (new_system_backend t₂ p₂ i₂ e₂).variant ∧
      (new_system_backend t p i e).migrations =
        (new_system_backend t₂ p₂ i₂ e₂).migrations ∧
      (new_system_backend t p i e).handler.extensions =
        [Ext.expirationManager e, Ext.tokenStore t, Ext.policyStore p,
          Ext.identityStore i] :=
  fun _ _ _ _ _ _ _ _ => ⟨rfl, rfl, rfl, rfl, rfl⟩

end Covert
